import Mathlib

/-!
Shallow embedding of the Eddystone advertising-structure decoder
`decode_eddystone` from `PyBTSteward/decode_eddystone.py`, together with
theorems about its behaviour.

The Python function receives `state` (unused), `config` (used only to set the
logger verbosity, which carries no decoding semantics) and `ad_struct`, a
Python 3 `bytes` buffer holding one advertising-data structure; only
`ad_struct` influences the returned value, so the embedding is a function of
the byte buffer alone.  Python exceptions are modelled with `Except`:
`IndexError` from out-of-range indexing and `struct.error` from a size
mismatch in `struct.unpack` (the `try` blocks of the source catch only
`ValueError` and `TypeError`, neither of which occurs on the `bytes` path, so
those fallback branches are dead for byte input and are not modelled).
-/

namespace PyBTSteward

/-- A byte buffer: a list of byte values (each entry is below 256). -/
abbrev Bytes := List Nat

/-- The Python exceptions the decoder can raise on a `bytes` input:
`IndexError` from indexing past the end of the buffer, `struct.error` from
`struct.unpack` receiving a slice whose size differs from the format size. -/
inductive PyErr where
  | indexError : PyErr
  | structError : PyErr
  deriving DecidableEq

/-- Byte at index `i`, defaulting to 0 out of range.  Every use in the decoder
is guarded (by the explicit length gate or by an unpack size check), exactly as
the corresponding Python reads are. -/
def getByte (ad : Bytes) (i : Nat) : Nat := ad.getD i 0

/-- Python slice `ad[a:b]` (clamping, never raising). -/
def slice (ad : Bytes) (a b : Nat) : Bytes := (ad.take b).drop a

/-- struct format <H : little-endian unsigned 16-bit from two bytes. -/
def u16le (lo hi : Nat) : Nat := lo + 256 * hi

/-- struct format >H : big-endian unsigned 16-bit from two bytes. -/
def u16be (hi lo : Nat) : Nat := 256 * hi + lo

/-- struct format b : signed byte (two-complement of one byte). -/
def i8 (b : Nat) : Int := if b < 0x80 then (b : Int) else (b : Int) - 0x100

/-- struct format >h : big-endian signed 16-bit from two bytes. -/
def i16be (hi lo : Nat) : Int :=
  if 256 * hi + lo < 0x8000 then ((256 * hi + lo : Nat) : Int)
  else ((256 * hi + lo : Nat) : Int) - 0x10000

/-- struct format >L : big-endian unsigned 32-bit from four bytes. -/
def u32be (b3 b2 b1 b0 : Nat) : Nat := ((b3 * 256 + b2) * 256 + b1) * 256 + b0

/-- Uppercase hexadecimal digit for a value below 16
(48 is the code of the digit zero, 65 = 55 + 10 the code of A). -/
def hexDigit (n : Nat) : Char :=
  if n < 10 then Char.ofNat (48 + n) else Char.ofNat (55 + n)

/-- Python format 02X applied to one byte: two uppercase hexadecimal digits
(lines 113 and 118 of the source). -/
def byteHex (b : Nat) : String :=
  String.mk [hexDigit (b / 16), hexDigit (b % 16)]

/-- Concatenated per-byte hexadecimal rendering, as in the namespace and
instance fields of the UID branch (lines 113 and 118). -/
def bytesHex (bs : Bytes) : String := String.join (bs.map byteHex)

/-- URL scheme texts, indexed by url_scheme AND 0x03 (line 137). -/
def urlSchemes : List String := ["http://www.", "https://www.", "http://", "https://"]

/-- URL expansion tokens (line 146). -/
def urlExpansions : List String := [".com", ".org", ".edu", ".net", ".info", ".biz", ".gov"]

/-- Line 144: the expansion-code test of the URL loop, `c_code < 14`. -/
def urlIsExpansionCode (c_code : Nat) : Bool := decide (c_code < 14)

/-- Line 151: the printable-graphic-ASCII test of the URL loop,
`c_code > 0x20 and c_code < 0x7F`. -/
def urlIsGraphicAscii (c_code : Nat) : Bool := decide (0x20 < c_code ∧ c_code < 0x7F)

/-- Body of the URL loop (lines 140-153) for one scanned character code: two
independent conditionals, exactly as in the source (an expansion append and a
literal-character append; the source does not chain them with an else).  On
the `bytes` path `ord` maps the scanned one-character string to its code,
which is the byte value itself. -/
def urlCharStep (url : String) (c_code : Nat) : String :=
  let url :=
    if urlIsExpansionCode c_code then
      url ++ urlExpansions.getD (if c_code < 7 then c_code else c_code - 7) "" ++
        (if c_code < 7 then "/" else "")
    else url
  if urlIsGraphicAscii c_code then url ++ String.mk [Char.ofNat c_code] else url

/-- Lines 137-153: the URL text, starting from the scheme text and folding the
loop body over the scanned bytes. -/
def buildUrl (url0 : String) (cs : Bytes) : String := cs.foldl urlCharStep url0

/-- The EddystoneCommon named tuple (lines 67-69). -/
structure EddystoneCommon where
  adstruct_bytes : Nat
  sd_length : Nat
  sd_flags_type : Nat
  sd_flags_data : Nat
  uuid_list_len : Nat
  uuid_dt_val : Nat
  eddystone_uuid : Nat
  eddy_len : Nat
  sd_type : Nat
  eddy_uuid_2 : Nat
  sub_type : Nat
  deriving DecidableEq

/-- Line 74: struct.unpack of format <BBBBBBHBBHB on the first 13 bytes.  The
fields occupy bytes 0,1,2,3,4,5,(6,7),8,9,(10,11),12 in order, the two
16-bit fields being little-endian. -/
def unpackCommon (ad : Bytes) : EddystoneCommon :=
  { adstruct_bytes := getByte ad 0,
    sd_length := getByte ad 1,
    sd_flags_type := getByte ad 2,
    sd_flags_data := getByte ad 3,
    uuid_list_len := getByte ad 4,
    uuid_dt_val := getByte ad 5,
    eddystone_uuid := u16le (getByte ad 6) (getByte ad 7),
    eddy_len := getByte ad 8,
    sd_type := getByte ad 9,
    eddy_uuid_2 := u16le (getByte ad 10) (getByte ad 11),
    sub_type := getByte ad 12 }

/-- The returned dictionary, with one optional field per key the source can
set.  Python float division is modelled exactly over the rationals.  The
`namespace` and `instance` keys get a trailing underscore because both words
are Lean keywords. -/
structure DecodeResult where
  adstruct_bytes : Nat
  type : Option String
  sub_type : Option String
  namespace_ : Option String
  instance_ : Option String
  rssi_ref : Option Int
  rssi_fudge : Option Nat
  url : Option String
  tlm_version : Option Nat
  vbatt : Option ℚ
  temp : Option ℚ
  adv_cnt : Option Nat
  sec_cnt : Option ℚ
  deriving DecidableEq

/-- Line 64: the initial return dictionary, adstruct_bytes plus type None. -/
def initRet (adstruct_bytes : Nat) : DecodeResult :=
  { adstruct_bytes := adstruct_bytes, type := none, sub_type := none,
    namespace_ := none, instance_ := none, rssi_ref := none, rssi_fudge := none,
    url := none, tlm_version := none, vbatt := none, temp := none,
    adv_cnt := none, sec_cnt := none }

/-- The `decode_eddystone` function of the source (bytes input path).  Layout
mirrors the Python line by line; each struct.unpack is modelled by its exact
size requirement on the sliced bytes (struct.error otherwise), and each direct
index by its range requirement (IndexError otherwise).  The three sub-type
conditionals of the source are separate `if` statements, but their guards are
pairwise exclusive on `sub_type`, so the `else if` chain below is equivalent. -/
def decode_eddystone (ad_struct : Bytes) : Except PyErr DecodeResult :=
  -- line 53: length = int(ad_struct[0]) + 1 (IndexError on an empty buffer)
  if 0 < ad_struct.length then
    let adstruct_bytes := getByte ad_struct 0 + 1
    -- line 64
    let ret : DecodeResult := initRet adstruct_bytes
    -- line 70: the length gate
    if 5 ≤ adstruct_bytes ∧ adstruct_bytes ≤ ad_struct.length then
      -- line 74: unpack of the 13-byte common header; struct.error unless the
      -- slice ad_struct[0:13] holds exactly 13 bytes
      if (slice ad_struct 0 13).length = 13 then
        let ec := unpackCommon ad_struct
        -- line 97
        if ec.eddystone_uuid = 0xFEAA ∧ ec.sd_type = 0x16 then
          let ret : DecodeResult := { ret with type := some "eddystone" }
          -- line 104: UID sub type
          if ec.sub_type = 0x00 ∧ (ec.eddy_len = 0x15 ∨ ec.eddy_len = 0x17) then
            -- line 109: unpack of format >b10s6s on ad_struct[13:30], 17 bytes
            if (slice ad_struct 13 30).length = 17 then
              .ok { ret with
                      sub_type := some "uid",
                      namespace_ := some (bytesHex (slice ad_struct 14 24)),
                      instance_ := some (bytesHex (slice ad_struct 24 30)),
                      rssi_ref := some (i8 (getByte ad_struct 13)) }
            else .error .structError
          -- line 128: URL sub type
          else if ec.sub_type = 0x10 then
            -- line 132: unpack of format >bB on ad_struct[13:20], exactly 2 bytes
            if (slice ad_struct 13 20).length = 2 then
              -- line 135: int(ad_struct[len(ad_struct)]); the index equals the
              -- length, so the read raises IndexError whenever it is reached
              if ad_struct.length < ad_struct.length then
                .ok { ret with
                        sub_type := some "url",
                        rssi_ref := some (i8 (getByte ad_struct 13)),
                        rssi_fudge := some (getByte ad_struct ad_struct.length),
                        url := some (buildUrl
                          (urlSchemes.getD ((getByte ad_struct 14) &&& 0x03) "")
                          (slice ad_struct 7 adstruct_bytes)) }
              else .error .indexError
            else .error .structError
          -- line 155: TLM sub type
          else if ec.sub_type = 0x20 ∧ ec.eddy_len = 0x11 then
            -- line 160: unpack of format >BHhLL on ad_struct[13:26], 13 bytes
            if (slice ad_struct 13 26).length = 13 then
              let tlm_version := getByte ad_struct 13
              let ret : DecodeResult :=
                { ret with sub_type := some "tlm", tlm_version := some tlm_version }
              -- line 164: metrics only for version 0
              if tlm_version = 0 then
                .ok { ret with
                        vbatt := some ((u16be (getByte ad_struct 14) (getByte ad_struct 15) : ℚ) / 1000),
                        temp := some ((i16be (getByte ad_struct 16) (getByte ad_struct 17) : ℚ) / 256),
                        adv_cnt := some (u32be (getByte ad_struct 18) (getByte ad_struct 19)
                                               (getByte ad_struct 20) (getByte ad_struct 21)),
                        sec_cnt := some ((u32be (getByte ad_struct 22) (getByte ad_struct 23)
                                                (getByte ad_struct 24) (getByte ad_struct 25) : ℚ) / 10) }
              else .ok ret
            else .error .structError
          -- no sub-type guard matched: Eddystone recognition only
          else .ok ret
        else .ok ret
      else .error .structError
    else .ok ret
  else .error .indexError

/-- The length gate of line 70, in terms of the raw buffer. -/
def lengthGate (ad : Bytes) : Prop :=
  5 ≤ getByte ad 0 + 1 ∧ getByte ad 0 + 1 ≤ ad.length

instance (ad : Bytes) : Decidable (lengthGate ad) :=
  inferInstanceAs (Decidable (5 ≤ getByte ad 0 + 1 ∧ getByte ad 0 + 1 ≤ ad.length))

/-- The recognition condition of line 97 in terms of the raw buffer:
eddystone_uuid is the little-endian 16-bit field at bytes 6-7 and sd_type is
the byte at index 9. -/
def isEddystoneHeader (ad : Bytes) : Prop :=
  u16le (getByte ad 6) (getByte ad 7) = 0xFEAA ∧ getByte ad 9 = 0x16

instance (ad : Bytes) : Decidable (isEddystoneHeader ad) :=
  inferInstanceAs (Decidable (u16le (getByte ad 6) (getByte ad 7) = 0xFEAA ∧ getByte ad 9 = 0x16))

/-- The UID guard of line 104 in terms of the raw buffer (sub_type is byte 12,
eddy_len byte 8). -/
def uidGuard (ad : Bytes) : Prop :=
  getByte ad 12 = 0x00 ∧ (getByte ad 8 = 0x15 ∨ getByte ad 8 = 0x17)

instance (ad : Bytes) : Decidable (uidGuard ad) :=
  inferInstanceAs (Decidable (getByte ad 12 = 0x00 ∧ (getByte ad 8 = 0x15 ∨ getByte ad 8 = 0x17)))

/-- The URL guard of line 128 in terms of the raw buffer. -/
def urlGuard (ad : Bytes) : Prop := getByte ad 12 = 0x10

instance (ad : Bytes) : Decidable (urlGuard ad) :=
  inferInstanceAs (Decidable (getByte ad 12 = 0x10))

/-- The TLM guard of line 155 in terms of the raw buffer. -/
def tlmGuard (ad : Bytes) : Prop := getByte ad 12 = 0x20 ∧ getByte ad 8 = 0x11

instance (ad : Bytes) : Decidable (tlmGuard ad) :=
  inferInstanceAs (Decidable (getByte ad 12 = 0x20 ∧ getByte ad 8 = 0x11))

/-- The dictionary returned when the frame is recognized as Eddystone but no
sub-type branch fires. -/
def eddyOnlyResult (n : Nat) : DecodeResult := { initRet n with type := some "eddystone" }

/-- The dictionary returned by the UID branch. -/
def uidResult (ad : Bytes) : DecodeResult :=
  { eddyOnlyResult (getByte ad 0 + 1) with
      sub_type := some "uid",
      namespace_ := some (bytesHex (slice ad 14 24)),
      instance_ := some (bytesHex (slice ad 24 30)),
      rssi_ref := some (i8 (getByte ad 13)) }

/-- The dictionary returned by the TLM branch for telemetry version 0. -/
def tlmResultV0 (ad : Bytes) : DecodeResult :=
  { eddyOnlyResult (getByte ad 0 + 1) with
      sub_type := some "tlm",
      tlm_version := some (getByte ad 13),
      vbatt := some ((u16be (getByte ad 14) (getByte ad 15) : ℚ) / 1000),
      temp := some ((i16be (getByte ad 16) (getByte ad 17) : ℚ) / 256),
      adv_cnt := some (u32be (getByte ad 18) (getByte ad 19) (getByte ad 20) (getByte ad 21)),
      sec_cnt := some ((u32be (getByte ad 22) (getByte ad 23) (getByte ad 24) (getByte ad 25) : ℚ) / 10) }

/-- The dictionary returned by the TLM branch for a nonzero telemetry
version: the metrics stay absent. -/
def tlmResultVn (ad : Bytes) : DecodeResult :=
  { eddyOnlyResult (getByte ad 0 + 1) with
      sub_type := some "tlm",
      tlm_version := some (getByte ad 13) }

/-- Whether a decoder call returned (rather than raised). -/
def isOkResult : Except PyErr DecodeResult → Bool
  | .ok _ => true
  | .error _ => false

/-- Exact characterization of the inputs on which `decode_eddystone` raises:
the empty buffer, or a gate-passing buffer shorter than the 13-byte header, or
a recognized frame whose sub-frame unpack needs more bytes than the buffer has
(UID: 30, TLM: 26), or any recognized URL frame. -/
def decodeRaisesB (ad : Bytes) : Bool :=
  decide (ad.length = 0) ||
  (decide (lengthGate ad) &&
    (decide (ad.length < 13) ||
      (decide (isEddystoneHeader ad) &&
        ((decide (uidGuard ad) && decide (ad.length < 30)) ||
         decide (urlGuard ad) ||
         (decide (tlmGuard ad) && decide (ad.length < 26))))))

/-- C5 test vector: a 30-byte UID frame with eddy_len 0x15, rssi_ref 0xEC,
namespace bytes 01..0A and instance bytes 0B..10. -/
def uidFrame15 : Bytes :=
  [29, 2, 1, 6, 3, 3, 0xAA, 0xFE, 0x15, 0x16, 0xAA, 0xFE, 0x00,
   0xEC, 1, 2, 3, 4, 5, 6, 7, 8, 9, 10, 11, 12, 13, 14, 15, 16]

/-- C5 boundary vector: the same frame with eddy_len 0x17. -/
def uidFrame17 : Bytes :=
  [29, 2, 1, 6, 3, 3, 0xAA, 0xFE, 0x17, 0x16, 0xAA, 0xFE, 0x00,
   0xEC, 1, 2, 3, 4, 5, 6, 7, 8, 9, 10, 11, 12, 13, 14, 15, 16]

/-- The UID dictionary both C5 vectors decode to. -/
def uidExpected : DecodeResult :=
  { adstruct_bytes := 30, type := some "eddystone", sub_type := some "uid",
    namespace_ := some "0102030405060708090A", instance_ := some "0B0C0D0E0F10",
    rssi_ref := some (-20), rssi_fudge := none, url := none, tlm_version := none,
    vbatt := none, temp := none, adv_cnt := none, sec_cnt := none }

/-- C7 failing input: a 15-byte URL frame (the only buffer length on which the
URL header unpack succeeds), with rssi_ref 0xEC and url_scheme 0x00. -/
def urlFrame15 : Bytes :=
  [14, 2, 1, 6, 3, 3, 0xAA, 0xFE, 0x04, 0x16, 0xAA, 0xFE, 0x10, 0xEC, 0x00]

/-- C10 witness input: a 16-byte URL frame (length different from 15). -/
def urlFrame16 : Bytes :=
  [15, 2, 1, 6, 3, 3, 0xAA, 0xFE, 0x05, 0x16, 0xAA, 0xFE, 0x10, 0xEC, 0x00, 0x00]

/-- C8 input: a 23-byte URL frame whose URL payload (bytes 15..22) is the
ASCII text example followed by expansion code 0x00, with url_scheme 0x00 at
byte 14 and eddy_len 0x0E at byte 8. -/
def urlExampleFrame : Bytes :=
  [22, 2, 1, 6, 3, 3, 0xAA, 0xFE, 0x0E, 0x16, 0xAA, 0xFE, 0x10,
   0xEC, 0x00, 101, 120, 97, 109, 112, 108, 101, 0x00]

/-- C6 witness input: a 26-byte TLM frame with tlm_version 0, vbatt 3300,
temp 2048, adv_cnt 10, sec_cnt 100. -/
def tlmFrame : Bytes :=
  [25, 2, 1, 6, 3, 3, 0xAA, 0xFE, 0x11, 0x16, 0xAA, 0xFE, 0x20,
   0x00, 0x0C, 0xE4, 0x08, 0x00, 0, 0, 0, 10, 0, 0, 0, 100]

/-- C4 counterexample input: a 13-byte gate-passing structure whose byte 8 is
0x16 (the position the claim calls sd_type) while byte 9, the actual sd_type
position, differs from 0x16. -/
def c4cex : Bytes := [12, 2, 1, 6, 3, 3, 0xAA, 0xFE, 0x16, 0x00, 0xAA, 0xFE, 0x00]

/-- C4 witness input: a 13-byte gate-passing structure that is not an
Eddystone frame. -/
def c4wit : Bytes := [12, 0, 0, 0, 0, 0, 0, 0, 0, 0, 0, 0, 0]


/-! ## Supporting lemmas: one lemma per control-flow branch of the decoder -/

/-- Length of a Python slice. -/
theorem length_slice (ad : Bytes) (a b : Nat) :
    (slice ad a b).length = min b ad.length - a := by
  simp [slice]

/-- An empty buffer raises IndexError at the first read (line 53). -/
theorem decode_empty_len (ad : Bytes) (h : ¬ 0 < ad.length) :
    decode_eddystone ad = .error .indexError := by
  simp only [decode_eddystone]
  rw [if_neg h]

/-- When the line-70 gate fails, the initial dictionary is returned. -/
theorem decode_gate_fail (ad : Bytes) (h0 : 0 < ad.length) (hg : ¬ lengthGate ad) :
    decode_eddystone ad = .ok (initRet (getByte ad 0 + 1)) := by
  have hg' : ¬ (5 ≤ getByte ad 0 + 1 ∧ getByte ad 0 + 1 ≤ ad.length) := hg
  simp only [decode_eddystone]
  rw [if_pos h0, if_neg hg']

/-- A gate-passing buffer shorter than the 13-byte header makes the common
unpack of line 74 raise struct.error. -/
theorem decode_no_header (ad : Bytes) (hg : lengthGate ad) (h13 : ad.length < 13) :
    decode_eddystone ad = .error .structError := by
  obtain ⟨hg1, hg2⟩ := hg
  have h0 : 0 < ad.length := by omega
  have hg' : (5 ≤ getByte ad 0 + 1 ∧ getByte ad 0 + 1 ≤ ad.length) := ⟨hg1, hg2⟩
  have hs : ¬ ((slice ad 0 13).length = 13) := by rw [length_slice]; omega
  simp only [decode_eddystone]
  rw [if_pos h0, if_pos hg', if_neg hs]

/-- When the line-97 recognition fails, the initial dictionary is returned. -/
theorem decode_not_eddystone (ad : Bytes) (hg : lengthGate ad) (h13 : 13 ≤ ad.length)
    (hne : ¬ isEddystoneHeader ad) :
    decode_eddystone ad = .ok (initRet (getByte ad 0 + 1)) := by
  obtain ⟨hg1, hg2⟩ := hg
  have h0 : 0 < ad.length := by omega
  have hg' : (5 ≤ getByte ad 0 + 1 ∧ getByte ad 0 + 1 ≤ ad.length) := ⟨hg1, hg2⟩
  have hs : (slice ad 0 13).length = 13 := by rw [length_slice]; omega
  have hne' : ¬ ((unpackCommon ad).eddystone_uuid = 0xFEAA ∧ (unpackCommon ad).sd_type = 0x16) := hne
  simp only [decode_eddystone]
  rw [if_pos h0, if_pos hg', if_pos hs, if_neg hne']

/-- A recognized UID frame in a buffer shorter than 30 bytes makes the UID
unpack of line 109 raise struct.error. -/
theorem decode_uid_short (ad : Bytes) (hg : lengthGate ad) (h13 : 13 ≤ ad.length)
    (he : isEddystoneHeader ad) (hu : uidGuard ad) (h30 : ad.length < 30) :
    decode_eddystone ad = .error .structError := by
  obtain ⟨hg1, hg2⟩ := hg
  have h0 : 0 < ad.length := by omega
  have hg' : (5 ≤ getByte ad 0 + 1 ∧ getByte ad 0 + 1 ≤ ad.length) := ⟨hg1, hg2⟩
  have hs : (slice ad 0 13).length = 13 := by rw [length_slice]; omega
  have he' : ((unpackCommon ad).eddystone_uuid = 0xFEAA ∧ (unpackCommon ad).sd_type = 0x16) := he
  have hu' : ((unpackCommon ad).sub_type = 0x00 ∧
      ((unpackCommon ad).eddy_len = 0x15 ∨ (unpackCommon ad).eddy_len = 0x17)) := hu
  have hs30 : ¬ ((slice ad 13 30).length = 17) := by rw [length_slice]; omega
  simp only [decode_eddystone]
  rw [if_pos h0, if_pos hg', if_pos hs, if_pos he', if_pos hu', if_neg hs30]

/-- The UID branch (lines 104-122) on a buffer of at least 30 bytes. -/
theorem decode_uid_ok (ad : Bytes) (hg : lengthGate ad)
    (he : isEddystoneHeader ad) (hu : uidGuard ad) (h30 : 30 ≤ ad.length) :
    decode_eddystone ad = .ok (uidResult ad) := by
  obtain ⟨hg1, hg2⟩ := hg
  have h0 : 0 < ad.length := by omega
  have hg' : (5 ≤ getByte ad 0 + 1 ∧ getByte ad 0 + 1 ≤ ad.length) := ⟨hg1, hg2⟩
  have hs : (slice ad 0 13).length = 13 := by rw [length_slice]; omega
  have he' : ((unpackCommon ad).eddystone_uuid = 0xFEAA ∧ (unpackCommon ad).sd_type = 0x16) := he
  have hu' : ((unpackCommon ad).sub_type = 0x00 ∧
      ((unpackCommon ad).eddy_len = 0x15 ∨ (unpackCommon ad).eddy_len = 0x17)) := hu
  have hs30 : (slice ad 13 30).length = 17 := by rw [length_slice]; omega
  simp only [decode_eddystone]
  rw [if_pos h0, if_pos hg', if_pos hs, if_pos he', if_pos hu', if_pos hs30]
  rfl

/-- The URL branch always raises: the unpack of line 132 applies a 2-byte
format to the slice ad_struct[13:20], whose size is 2 only on a 15-byte
buffer, and on a 15-byte buffer the line-135 read of index 15 is out of
bounds. -/
theorem decode_url_branch (ad : Bytes) (hg : lengthGate ad) (h13 : 13 ≤ ad.length)
    (he : isEddystoneHeader ad) (hu : urlGuard ad) :
    decode_eddystone ad =
      .error (if ad.length = 15 then PyErr.indexError else PyErr.structError) := by
  obtain ⟨hg1, hg2⟩ := hg
  have h0 : 0 < ad.length := by omega
  have hg' : (5 ≤ getByte ad 0 + 1 ∧ getByte ad 0 + 1 ≤ ad.length) := ⟨hg1, hg2⟩
  have hs : (slice ad 0 13).length = 13 := by rw [length_slice]; omega
  have he' : ((unpackCommon ad).eddystone_uuid = 0xFEAA ∧ (unpackCommon ad).sd_type = 0x16) := he
  have hu12 : getByte ad 12 = 0x10 := hu
  have hnu : ¬ ((unpackCommon ad).sub_type = 0x00 ∧
      ((unpackCommon ad).eddy_len = 0x15 ∨ (unpackCommon ad).eddy_len = 0x17)) := by
    intro hx
    have hx1 : getByte ad 12 = 0x00 := hx.1
    omega
  have hu' : (unpackCommon ad).sub_type = 0x10 := hu
  have hlt : ¬ (ad.length < ad.length) := lt_irrefl _
  by_cases h15 : ad.length = 15
  · have hs2 : (slice ad 13 20).length = 2 := by rw [length_slice]; omega
    simp only [decode_eddystone]
    rw [if_pos h0, if_pos hg', if_pos hs, if_pos he', if_neg hnu, if_pos hu', if_pos hs2,
      if_neg hlt, if_pos h15]
  · have hs2 : ¬ ((slice ad 13 20).length = 2) := by rw [length_slice]; omega
    simp only [decode_eddystone]
    rw [if_pos h0, if_pos hg', if_pos hs, if_pos he', if_neg hnu, if_pos hu', if_neg hs2,
      if_neg h15]

/-- A recognized TLM frame in a buffer shorter than 26 bytes makes the TLM
unpack of line 160 raise struct.error. -/
theorem decode_tlm_short (ad : Bytes) (hg : lengthGate ad) (h13 : 13 ≤ ad.length)
    (he : isEddystoneHeader ad) (ht : tlmGuard ad) (h26 : ad.length < 26) :
    decode_eddystone ad = .error .structError := by
  obtain ⟨hg1, hg2⟩ := hg
  have h0 : 0 < ad.length := by omega
  have hg' : (5 ≤ getByte ad 0 + 1 ∧ getByte ad 0 + 1 ≤ ad.length) := ⟨hg1, hg2⟩
  have hs : (slice ad 0 13).length = 13 := by rw [length_slice]; omega
  have he' : ((unpackCommon ad).eddystone_uuid = 0xFEAA ∧ (unpackCommon ad).sd_type = 0x16) := he
  have ht12 : getByte ad 12 = 0x20 := ht.1
  have hnu : ¬ ((unpackCommon ad).sub_type = 0x00 ∧
      ((unpackCommon ad).eddy_len = 0x15 ∨ (unpackCommon ad).eddy_len = 0x17)) := by
    intro hx
    have hx1 : getByte ad 12 = 0x00 := hx.1
    omega
  have hnl : ¬ ((unpackCommon ad).sub_type = 0x10) := by
    intro hx
    have hx1 : getByte ad 12 = 0x10 := hx
    omega
  have ht' : ((unpackCommon ad).sub_type = 0x20 ∧ (unpackCommon ad).eddy_len = 0x11) := ht
  have hs26 : ¬ ((slice ad 13 26).length = 13) := by rw [length_slice]; omega
  simp only [decode_eddystone]
  rw [if_pos h0, if_pos hg', if_pos hs, if_pos he', if_neg hnu, if_neg hnl, if_pos ht',
    if_neg hs26]

/-- The TLM branch (lines 155-168) for telemetry version 0. -/
theorem decode_tlm_v0 (ad : Bytes) (hg : lengthGate ad)
    (he : isEddystoneHeader ad) (ht : tlmGuard ad) (h26 : 26 ≤ ad.length)
    (hv : getByte ad 13 = 0) :
    decode_eddystone ad = .ok (tlmResultV0 ad) := by
  obtain ⟨hg1, hg2⟩ := hg
  have h0 : 0 < ad.length := by omega
  have hg' : (5 ≤ getByte ad 0 + 1 ∧ getByte ad 0 + 1 ≤ ad.length) := ⟨hg1, hg2⟩
  have hs : (slice ad 0 13).length = 13 := by rw [length_slice]; omega
  have he' : ((unpackCommon ad).eddystone_uuid = 0xFEAA ∧ (unpackCommon ad).sd_type = 0x16) := he
  have ht12 : getByte ad 12 = 0x20 := ht.1
  have hnu : ¬ ((unpackCommon ad).sub_type = 0x00 ∧
      ((unpackCommon ad).eddy_len = 0x15 ∨ (unpackCommon ad).eddy_len = 0x17)) := by
    intro hx
    have hx1 : getByte ad 12 = 0x00 := hx.1
    omega
  have hnl : ¬ ((unpackCommon ad).sub_type = 0x10) := by
    intro hx
    have hx1 : getByte ad 12 = 0x10 := hx
    omega
  have ht' : ((unpackCommon ad).sub_type = 0x20 ∧ (unpackCommon ad).eddy_len = 0x11) := ht
  have hs26 : (slice ad 13 26).length = 13 := by rw [length_slice]; omega
  simp only [decode_eddystone]
  rw [if_pos h0, if_pos hg', if_pos hs, if_pos he', if_neg hnu, if_neg hnl, if_pos ht',
    if_pos hs26, if_pos hv]
  rfl

/-- The TLM branch (lines 155-168) for a nonzero telemetry version. -/
theorem decode_tlm_vn (ad : Bytes) (hg : lengthGate ad)
    (he : isEddystoneHeader ad) (ht : tlmGuard ad) (h26 : 26 ≤ ad.length)
    (hv : ¬ (getByte ad 13 = 0)) :
    decode_eddystone ad = .ok (tlmResultVn ad) := by
  obtain ⟨hg1, hg2⟩ := hg
  have h0 : 0 < ad.length := by omega
  have hg' : (5 ≤ getByte ad 0 + 1 ∧ getByte ad 0 + 1 ≤ ad.length) := ⟨hg1, hg2⟩
  have hs : (slice ad 0 13).length = 13 := by rw [length_slice]; omega
  have he' : ((unpackCommon ad).eddystone_uuid = 0xFEAA ∧ (unpackCommon ad).sd_type = 0x16) := he
  have ht12 : getByte ad 12 = 0x20 := ht.1
  have hnu : ¬ ((unpackCommon ad).sub_type = 0x00 ∧
      ((unpackCommon ad).eddy_len = 0x15 ∨ (unpackCommon ad).eddy_len = 0x17)) := by
    intro hx
    have hx1 : getByte ad 12 = 0x00 := hx.1
    omega
  have hnl : ¬ ((unpackCommon ad).sub_type = 0x10) := by
    intro hx
    have hx1 : getByte ad 12 = 0x10 := hx
    omega
  have ht' : ((unpackCommon ad).sub_type = 0x20 ∧ (unpackCommon ad).eddy_len = 0x11) := ht
  have hs26 : (slice ad 13 26).length = 13 := by rw [length_slice]; omega
  simp only [decode_eddystone]
  rw [if_pos h0, if_pos hg', if_pos hs, if_pos he', if_neg hnu, if_neg hnl, if_pos ht',
    if_pos hs26, if_neg hv]
  rfl

/-- A recognized frame matching no sub-type guard yields the bare Eddystone
dictionary. -/
theorem decode_eddy_only (ad : Bytes) (hg : lengthGate ad) (h13 : 13 ≤ ad.length)
    (he : isEddystoneHeader ad) (hnu : ¬ uidGuard ad) (hnl : ¬ urlGuard ad)
    (hnt : ¬ tlmGuard ad) :
    decode_eddystone ad = .ok (eddyOnlyResult (getByte ad 0 + 1)) := by
  obtain ⟨hg1, hg2⟩ := hg
  have h0 : 0 < ad.length := by omega
  have hg' : (5 ≤ getByte ad 0 + 1 ∧ getByte ad 0 + 1 ≤ ad.length) := ⟨hg1, hg2⟩
  have hs : (slice ad 0 13).length = 13 := by rw [length_slice]; omega
  have he' : ((unpackCommon ad).eddystone_uuid = 0xFEAA ∧ (unpackCommon ad).sd_type = 0x16) := he
  have hnu' : ¬ ((unpackCommon ad).sub_type = 0x00 ∧
      ((unpackCommon ad).eddy_len = 0x15 ∨ (unpackCommon ad).eddy_len = 0x17)) := hnu
  have hnl' : ¬ ((unpackCommon ad).sub_type = 0x10) := hnl
  have hnt' : ¬ ((unpackCommon ad).sub_type = 0x20 ∧ (unpackCommon ad).eddy_len = 0x11) := hnt
  simp only [decode_eddystone]
  rw [if_pos h0, if_pos hg', if_pos hs, if_pos he', if_neg hnu', if_neg hnl', if_neg hnt']
  rfl

/-- Field values of the initial dictionary. -/
theorem initRet_adstruct_bytes (n : Nat) : (initRet n).adstruct_bytes = n := rfl

/-- The initial dictionary has type None. -/
theorem initRet_type (n : Nat) : (initRet n).type = none := rfl

/-- The initial dictionary has no sub_type. -/
theorem initRet_sub_type (n : Nat) : (initRet n).sub_type = none := rfl

/-- The bare Eddystone dictionary has type eddystone. -/
theorem eddyOnly_type (n : Nat) : (eddyOnlyResult n).type = some "eddystone" := rfl

/-- The bare Eddystone dictionary has no sub_type. -/
theorem eddyOnly_sub_type (n : Nat) : (eddyOnlyResult n).sub_type = none := rfl

/-- The UID dictionary has sub_type uid. -/
theorem uidResult_sub_type (ad : Bytes) : (uidResult ad).sub_type = some "uid" := rfl

/-- Exhaustive case analysis of every dictionary the decoder can return
without raising: the gate-failing case, the unrecognized case, the UID case,
the two TLM cases and the recognition-only case (the URL branch never
returns). -/
theorem decode_ok_cases (ad : Bytes) (r : DecodeResult)
    (h : decode_eddystone ad = .ok r) :
    (¬ lengthGate ad ∧ r = initRet (getByte ad 0 + 1)) ∨
    (lengthGate ad ∧ 13 ≤ ad.length ∧ ¬ isEddystoneHeader ad ∧
      r = initRet (getByte ad 0 + 1)) ∨
    (lengthGate ad ∧ isEddystoneHeader ad ∧ uidGuard ad ∧ 30 ≤ ad.length ∧
      r = uidResult ad) ∨
    (lengthGate ad ∧ isEddystoneHeader ad ∧ tlmGuard ad ∧ 26 ≤ ad.length ∧
      ((getByte ad 13 = 0 ∧ r = tlmResultV0 ad) ∨
       (¬ (getByte ad 13 = 0) ∧ r = tlmResultVn ad))) ∨
    (lengthGate ad ∧ 13 ≤ ad.length ∧ isEddystoneHeader ad ∧ ¬ uidGuard ad ∧
      ¬ urlGuard ad ∧ ¬ tlmGuard ad ∧ r = eddyOnlyResult (getByte ad 0 + 1)) := by
  by_cases h0 : 0 < ad.length
  · by_cases hg : lengthGate ad
    · by_cases h13 : 13 ≤ ad.length
      · by_cases he : isEddystoneHeader ad
        · by_cases hu : uidGuard ad
          · by_cases h30 : 30 ≤ ad.length
            · rw [decode_uid_ok ad hg he hu h30] at h
              simp only [Except.ok.injEq] at h
              exact Or.inr (Or.inr (Or.inl ⟨hg, he, hu, h30, h.symm⟩))
            · rw [decode_uid_short ad hg h13 he hu (by omega)] at h
              exact Except.noConfusion h
          · by_cases hl : urlGuard ad
            · rw [decode_url_branch ad hg h13 he hl] at h
              split at h <;> exact Except.noConfusion h
            · by_cases ht : tlmGuard ad
              · by_cases h26 : 26 ≤ ad.length
                · by_cases hv : getByte ad 13 = 0
                  · rw [decode_tlm_v0 ad hg he ht h26 hv] at h
                    simp only [Except.ok.injEq] at h
                    exact Or.inr (Or.inr (Or.inr (Or.inl
                      ⟨hg, he, ht, h26, Or.inl ⟨hv, h.symm⟩⟩)))
                  · rw [decode_tlm_vn ad hg he ht h26 hv] at h
                    simp only [Except.ok.injEq] at h
                    exact Or.inr (Or.inr (Or.inr (Or.inl
                      ⟨hg, he, ht, h26, Or.inr ⟨hv, h.symm⟩⟩)))
                · rw [decode_tlm_short ad hg h13 he ht (by omega)] at h
                  exact Except.noConfusion h
              · rw [decode_eddy_only ad hg h13 he hu hl ht] at h
                simp only [Except.ok.injEq] at h
                exact Or.inr (Or.inr (Or.inr (Or.inr ⟨hg, h13, he, hu, hl, ht, h.symm⟩)))
        · rw [decode_not_eddystone ad hg h13 he] at h
          simp only [Except.ok.injEq] at h
          exact Or.inr (Or.inl ⟨hg, h13, he, h.symm⟩)
      · rw [decode_no_header ad hg (by omega)] at h
        exact Except.noConfusion h
    · rw [decode_gate_fail ad h0 hg] at h
      simp only [Except.ok.injEq] at h
      exact Or.inl ⟨hg, h.symm⟩
  · rw [decode_empty_len ad h0] at h
    exact Except.noConfusion h

/-! ## Claim theorems -/

/-- C1, counterexample: the claim that `decode_eddystone` never raises for any
input of length at least 1 is false: the 5-byte buffer 04 00 00 00 00 passes
the length gate and then raises struct.error at the 13-byte header unpack. -/
theorem claim1_counterexample :
    ([4, 0, 0, 0, 0] : Bytes).length = 5 ∧
    decode_eddystone [4, 0, 0, 0, 0] = .error .structError := ⟨rfl, rfl⟩

/-- C1, amended: `decode_eddystone` returns a result exactly when it does not
hit one of its raising situations: an empty buffer, a gate-passing buffer
shorter than the 13-byte header, a recognized UID frame in a buffer shorter
than 30 bytes, any recognized URL frame, or a recognized TLM frame in a
buffer shorter than 26 bytes. -/
theorem claim1_total (ad : Bytes) :
    isOkResult (decode_eddystone ad) = ! decodeRaisesB ad := by
  by_cases h0 : 0 < ad.length
  · have hlen0 : ¬ (ad.length = 0) := by omega
    by_cases hg : lengthGate ad
    · by_cases h13 : 13 ≤ ad.length
      · have hlt13 : ¬ (ad.length < 13) := by omega
        by_cases he : isEddystoneHeader ad
        · by_cases hu : uidGuard ad
          · have hnl : ¬ urlGuard ad := by
              intro hx
              have h1 : getByte ad 12 = 0x10 := hx
              have h2 : getByte ad 12 = 0x00 := hu.1
              omega
            have hnt : ¬ tlmGuard ad := by
              intro hx
              have h1 : getByte ad 12 = 0x20 := hx.1
              have h2 : getByte ad 12 = 0x00 := hu.1
              omega
            by_cases h30 : 30 ≤ ad.length
            · have hlt30 : ¬ (ad.length < 30) := by omega
              rw [decode_uid_ok ad hg he hu h30]
              simp [isOkResult, decodeRaisesB, hlen0, hg, hlt13, he, hu, hlt30, hnl, hnt]
            · have hlt30 : ad.length < 30 := by omega
              rw [decode_uid_short ad hg h13 he hu hlt30]
              simp [isOkResult, decodeRaisesB, hlen0, hg, hlt13, he, hu, hlt30]
          · by_cases hl : urlGuard ad
            · rw [decode_url_branch ad hg h13 he hl]
              simp [isOkResult, decodeRaisesB, hlen0, hg, hlt13, he, hu, hl]
            · by_cases ht : tlmGuard ad
              · by_cases h26 : 26 ≤ ad.length
                · have hlt26 : ¬ (ad.length < 26) := by omega
                  by_cases hv : getByte ad 13 = 0
                  · rw [decode_tlm_v0 ad hg he ht h26 hv]
                    simp [isOkResult, decodeRaisesB, hlen0, hg, hlt13, he, hu, hl, ht, hlt26]
                  · rw [decode_tlm_vn ad hg he ht h26 hv]
                    simp [isOkResult, decodeRaisesB, hlen0, hg, hlt13, he, hu, hl, ht, hlt26]
                · have hlt26 : ad.length < 26 := by omega
                  rw [decode_tlm_short ad hg h13 he ht hlt26]
                  simp [isOkResult, decodeRaisesB, hlen0, hg, hlt13, he, hu, hl, ht, hlt26]
              · rw [decode_eddy_only ad hg h13 he hu hl ht]
                simp [isOkResult, decodeRaisesB, hlen0, hg, hlt13, he, hu, hl, ht]
        · rw [decode_not_eddystone ad hg h13 he]
          simp [isOkResult, decodeRaisesB, hlen0, hg, hlt13, he]
      · have hlt13 : ad.length < 13 := by omega
        rw [decode_no_header ad hg hlt13]
        simp [isOkResult, decodeRaisesB, hlen0, hg, hlt13]
    · rw [decode_gate_fail ad h0 hg]
      simp [isOkResult, decodeRaisesB, hlen0, hg]
  · rw [decode_empty_len ad h0]
    have hlen : ad.length = 0 := by omega
    simp [isOkResult, decodeRaisesB, hlen]

/-- C2: every dictionary the decoder returns on a non-empty input carries
adstruct_bytes equal to the first byte of the buffer plus one, for every
variant. -/
theorem claim2_adstruct_bytes (ad : Bytes) (r : DecodeResult)
    (_h0 : ad ≠ []) (h : decode_eddystone ad = .ok r) :
    r.adstruct_bytes = getByte ad 0 + 1 := by
  rcases decode_ok_cases ad r h with ⟨_, hr⟩ | ⟨_, _, _, hr⟩ | ⟨_, _, _, _, hr⟩ |
    ⟨_, _, _, _, hd⟩ | ⟨_, _, _, _, _, _, hr⟩
  · subst hr; rfl
  · subst hr; rfl
  · subst hr; rfl
  · rcases hd with ⟨_, hr⟩ | ⟨_, hr⟩ <;> (subst hr; rfl)
  · subst hr; rfl

/-- C2, witness: the one-byte buffer 00 decodes to the Unknown dictionary
with adstruct_bytes 1. -/
theorem claim2_adstruct_bytes_wit :
    (initRet 1).adstruct_bytes = getByte [0] 0 + 1 :=
  claim2_adstruct_bytes [0] (initRet 1) (by decide) rfl

/-- C3: whenever adstruct_bytes is below 5 or above the buffer length, the
decoder returns the Unknown dictionary (type None) carrying that
adstruct_bytes, with no header or sub-frame field set. -/
theorem claim3_short_unknown (b0 : Nat) (rest : Bytes)
    (h : b0 + 1 < 5 ∨ (b0 :: rest).length < b0 + 1) :
    decode_eddystone (b0 :: rest) = .ok (initRet (b0 + 1)) ∧
    (initRet (b0 + 1)).type = none ∧ (initRet (b0 + 1)).adstruct_bytes = b0 + 1 := by
  have h0 : 0 < (b0 :: rest).length := by simp
  have hb : getByte (b0 :: rest) 0 = b0 := rfl
  have hg : ¬ lengthGate (b0 :: rest) := by
    unfold lengthGate
    rw [hb]
    rcases h with h | h
    · intro hx; omega
    · intro hx; omega
  refine ⟨?_, rfl, rfl⟩
  have hd := decode_gate_fail (b0 :: rest) h0 hg
  rw [hb] at hd
  exact hd

/-- C3, witness: the one-byte buffer 00 has adstruct_bytes 1 below 5 and
decodes to the Unknown dictionary. -/
theorem claim3_short_unknown_wit :
    decode_eddystone (0 :: ([] : Bytes)) = .ok (initRet (0 + 1)) ∧
    (initRet (0 + 1)).type = none ∧ (initRet (0 + 1)).adstruct_bytes = 0 + 1 :=
  claim3_short_unknown 0 [] (Or.inl (by omega))

/-- C4, counterexample: the claim places sd_type at byte 8, but byte 8 is
eddy_len; a gate-passing buffer whose byte 8 is 0x16 and whose byte 9 (the
real sd_type position) differs from 0x16 satisfies the claimed conditions yet
decodes to the Unknown dictionary. -/
theorem claim4_counterexample :
    u16le (getByte c4cex 6) (getByte c4cex 7) = 0xFEAA ∧ getByte c4cex 8 = 0x16 ∧
    lengthGate c4cex ∧ decode_eddystone c4cex = .ok (initRet 13) ∧
    (initRet 13).type = none := ⟨rfl, rfl, by decide, rfl, rfl⟩

/-- C4, amended: for every gate-passing input on which the decoder returns, the
result is tagged eddystone exactly when the little-endian 16-bit field at
bytes 6-7 is 0xFEAA and the byte at index 9 (sd_type) is 0x16; otherwise the
Unknown dictionary is returned. -/
theorem claim4_recognition (ad : Bytes) (r : DecodeResult)
    (hg : lengthGate ad) (h : decode_eddystone ad = .ok r) :
    (r.type = some "eddystone" ↔ isEddystoneHeader ad) ∧
    (¬ isEddystoneHeader ad → r = initRet (getByte ad 0 + 1)) := by
  rcases decode_ok_cases ad r h with ⟨hng, _⟩ | ⟨_, _, hne, hr⟩ | ⟨_, he, _, _, hr⟩ |
    ⟨_, he, _, _, hd⟩ | ⟨_, _, he, _, _, _, hr⟩
  · exact absurd hg hng
  · subst hr
    refine ⟨⟨fun hty => ?_, fun hhe => absurd hhe hne⟩, fun _ => rfl⟩
    rw [initRet_type] at hty
    exact Option.noConfusion hty
  · subst hr
    exact ⟨⟨fun _ => he, fun _ => rfl⟩, fun hne => absurd he hne⟩
  · rcases hd with ⟨_, hr⟩ | ⟨_, hr⟩ <;> subst hr <;>
      exact ⟨⟨fun _ => he, fun _ => rfl⟩, fun hne => absurd he hne⟩
  · subst hr
    exact ⟨⟨fun _ => he, fun _ => rfl⟩, fun hne => absurd he hne⟩

/-- C4, witness: a 13-byte gate-passing non-Eddystone buffer decodes to the
Unknown dictionary and the recognition equivalence holds on it. -/
theorem claim4_recognition_wit :
    ((initRet 13).type = some "eddystone" ↔ isEddystoneHeader c4wit) ∧
    (¬ isEddystoneHeader c4wit → initRet 13 = initRet (getByte c4wit 0 + 1)) :=
  claim4_recognition c4wit (initRet 13) (by decide) rfl

/-- C5: the 30-byte UID vector with eddy_len 0x15 (rssi_ref 0xEC, namespace
bytes 01..0A, instance bytes 0B..10) decodes to namespace
0102030405060708090A, instance 0B0C0D0E0F10 and rssi_ref -20, and the
otherwise identical vector with eddy_len 0x17 decodes to exactly the same
dictionary. -/
theorem claim5_uid_vectors :
    decode_eddystone uidFrame15 = .ok uidExpected ∧
    decode_eddystone uidFrame17 = .ok uidExpected := ⟨rfl, rfl⟩

/-- C6: whenever the decoder returns a TLM dictionary, eddy_len (byte 8) is
0x11, tlm_version (byte 13) is reported, and the four metrics
vbatt = vbatt_raw / 1000, temp = temp_raw / 256 (temp_raw a big-endian signed
16-bit value), adv_cnt = adv_cnt_raw and sec_cnt = sec_cnt_raw / 10 are
present exactly when tlm_version is 0 (float division modelled exactly over
the rationals). -/
theorem claim6_tlm_fields (ad : Bytes) (r : DecodeResult)
    (h : decode_eddystone ad = .ok r) (hs : r.sub_type = some "tlm") :
    getByte ad 8 = 0x11 ∧
    r.tlm_version = some (getByte ad 13) ∧
    (getByte ad 13 = 0 →
      r.vbatt = some ((u16be (getByte ad 14) (getByte ad 15) : ℚ) / 1000) ∧
      r.temp = some ((i16be (getByte ad 16) (getByte ad 17) : ℚ) / 256) ∧
      r.adv_cnt = some (u32be (getByte ad 18) (getByte ad 19) (getByte ad 20) (getByte ad 21)) ∧
      r.sec_cnt = some ((u32be (getByte ad 22) (getByte ad 23) (getByte ad 24) (getByte ad 25) : ℚ) / 10)) ∧
    (¬ (getByte ad 13 = 0) →
      r.vbatt = none ∧ r.temp = none ∧ r.adv_cnt = none ∧ r.sec_cnt = none) := by
  rcases decode_ok_cases ad r h with ⟨_, hr⟩ | ⟨_, _, _, hr⟩ | ⟨_, _, _, _, hr⟩ |
    ⟨_, _, ht, _, hd⟩ | ⟨_, _, _, _, _, _, hr⟩
  · subst hr; rw [initRet_sub_type] at hs; exact Option.noConfusion hs
  · subst hr; rw [initRet_sub_type] at hs; exact Option.noConfusion hs
  · subst hr; rw [uidResult_sub_type] at hs; exact absurd hs (by decide)
  · rcases hd with ⟨hv, hr⟩ | ⟨hv, hr⟩
    · subst hr
      exact ⟨ht.2, rfl, fun _ => ⟨rfl, rfl, rfl, rfl⟩, fun hx => absurd hv hx⟩
    · subst hr
      exact ⟨ht.2, rfl, fun hx => absurd hx hv, fun _ => ⟨rfl, rfl, rfl, rfl⟩⟩
  · subst hr; rw [eddyOnly_sub_type] at hs; exact Option.noConfusion hs

/-- C6, witness: the 26-byte TLM vector with tlm_version 0, vbatt 3300, temp
2048, adv_cnt 10 and sec_cnt 100 satisfies the claim, and the raw values give
vbatt 33/10, temp 8 and sec_cnt 10 as rationals. -/
theorem claim6_tlm_fields_wit :
    (getByte tlmFrame 8 = 0x11 ∧
     (tlmResultV0 tlmFrame).tlm_version = some (getByte tlmFrame 13) ∧
     (getByte tlmFrame 13 = 0 →
       (tlmResultV0 tlmFrame).vbatt = some ((u16be (getByte tlmFrame 14) (getByte tlmFrame 15) : ℚ) / 1000) ∧
       (tlmResultV0 tlmFrame).temp = some ((i16be (getByte tlmFrame 16) (getByte tlmFrame 17) : ℚ) / 256) ∧
       (tlmResultV0 tlmFrame).adv_cnt = some (u32be (getByte tlmFrame 18) (getByte tlmFrame 19) (getByte tlmFrame 20) (getByte tlmFrame 21)) ∧
       (tlmResultV0 tlmFrame).sec_cnt = some ((u32be (getByte tlmFrame 22) (getByte tlmFrame 23) (getByte tlmFrame 24) (getByte tlmFrame 25) : ℚ) / 10)) ∧
     (¬ (getByte tlmFrame 13 = 0) →
       (tlmResultV0 tlmFrame).vbatt = none ∧ (tlmResultV0 tlmFrame).temp = none ∧
       (tlmResultV0 tlmFrame).adv_cnt = none ∧ (tlmResultV0 tlmFrame).sec_cnt = none)) ∧
    u16be (getByte tlmFrame 14) (getByte tlmFrame 15) = 3300 ∧
    i16be (getByte tlmFrame 16) (getByte tlmFrame 17) = 2048 ∧
    u32be (getByte tlmFrame 18) (getByte tlmFrame 19) (getByte tlmFrame 20) (getByte tlmFrame 21) = 10 ∧
    u32be (getByte tlmFrame 22) (getByte tlmFrame 23) (getByte tlmFrame 24) (getByte tlmFrame 25) = 100 ∧
    (3300 : ℚ) / 1000 = 33 / 10 ∧ (2048 : ℚ) / 256 = 8 ∧ (100 : ℚ) / 10 = 10 :=
  ⟨claim6_tlm_fields tlmFrame (tlmResultV0 tlmFrame) rfl rfl,
   rfl, rfl, rfl, rfl, by norm_num, by norm_num, by norm_num⟩

/-- C7: evaluation at the failing input.  On the 15-byte URL frame (the only
buffer length whose URL header unpack succeeds) the line-135 read
ad_struct[len(ad_struct)] is out of bounds, so the call raises IndexError
instead of returning the last byte as rssi_fudge. -/
theorem claim7_fudge_read_raises :
    urlFrame15.length = 15 ∧ lengthGate urlFrame15 ∧ isEddystoneHeader urlFrame15 ∧
    urlGuard urlFrame15 ∧ decode_eddystone urlFrame15 = .error .indexError :=
  ⟨rfl, by decide, by decide, rfl, rfl⟩

/-- C8, counterexample: on the 23-byte URL frame carrying the ASCII text
example and expansion code 0x00, the decoder raises struct.error (the 2-byte
URL header format is applied to a 7-byte slice) instead of returning a URL
dictionary. -/
theorem claim8_counterexample :
    decode_eddystone urlExampleFrame = .error .structError := rfl

/-- C8, amended: on that frame the decoder raises rather than returning, and
the URL text the loop of lines 137-153 assembles (scanning bytes
[7, adstruct_bytes), which includes the url_scheme byte 0x00) would be
http://www..com/example.com/ rather than http://www.example.com/. -/
theorem claim8_url_branch_raises :
    decode_eddystone urlExampleFrame = .error .structError ∧
    buildUrl (urlSchemes.getD ((getByte urlExampleFrame 14) &&& 0x03) "")
        (slice urlExampleFrame 7 (getByte urlExampleFrame 0 + 1)) =
      "http://www..com/example.com/" := ⟨rfl, rfl⟩

set_option maxRecDepth 8192 in
/-- C9, counterexample: no byte value makes both the expansion-code test and
the printable-ASCII test of the URL loop fire, so no byte duplicates the
output. -/
theorem claim9_counterexample :
    (List.range 256).all (fun c => !(urlIsExpansionCode c && urlIsGraphicAscii c)) = true := by
  decide

/-- C9, amended: the two per-byte tests of the URL loop are written as two
independent conditionals, but they are disjoint for every character code
(expansion codes are below 14, the printable range starts at 0x21), so both
never fire on the same byte and no output duplication occurs. -/
theorem claim9_checks_disjoint (c_code : Nat) :
    (urlIsExpansionCode c_code && urlIsGraphicAscii c_code) = false := by
  simp only [urlIsExpansionCode, urlIsGraphicAscii]
  by_cases h : c_code < 14
  · have h2 : ¬ (0x20 < c_code ∧ c_code < 0x7F) := by omega
    simp [h, h2]
  · simp [h]

/-- C10: every input reaching the URL branch (length gate passed, buffer at
least 13 bytes, eddystone_uuid 0xFEAA with sd_type 0x16, sub_type 0x10) makes
the decoder raise before returning: struct.error from the 2-byte unpack of
ad_struct[13:20] unless the buffer is exactly 15 bytes, and IndexError from
the read of ad_struct[len(ad_struct)] when it is; hence a URL dictionary is
never returned. -/
theorem claim10_url_never_returns (ad : Bytes) (hg : lengthGate ad)
    (h13 : 13 ≤ ad.length) (he : isEddystoneHeader ad) (hu : urlGuard ad) :
    decode_eddystone ad =
      .error (if ad.length = 15 then PyErr.indexError else PyErr.structError) :=
  decode_url_branch ad hg h13 he hu

/-- C10, witness: a 16-byte URL frame reaches the branch and raises
struct.error. -/
theorem claim10_url_never_returns_wit :
    decode_eddystone urlFrame16 =
      .error (if urlFrame16.length = 15 then PyErr.indexError else PyErr.structError) :=
  claim10_url_never_returns urlFrame16 (by decide) (by decide) (by decide) rfl

end PyBTSteward
